import Mathlib

/-!
Shallow embedding of the React wine-sommelier app
(`src/react-sommelier/src/App.js`): its data model (messages, wine
recommendations, tabs, cellar slots), the state held by the `App`
component (`activeTab`, `inputValue`, `messages`, the scheduled
`setTimeout` callbacks), and the state transitions (`handleSend`,
`setInputValue`, tab clicks, timer expiry).  Each scheduled timeout
captures the `newMessages` list that was in scope when `handleSend`
ran, exactly as the JavaScript closure does.
-/

/-- Sender of a chat message: the string enum {user, bot} of the
source's `message.sender` field. -/
inductive Sender where
  | user
  | bot
  deriving DecidableEq, Repr

/-- A wine recommendation record as carried on bot messages. -/
structure Wine where
  name : String
  region : String
  grape : String
  points : Nat
  description : String
  price : String
  deriving DecidableEq, Repr

/-- A chat message: sender, text, and an optional list of wine cards
(present only when the message object has a `wines` field). -/
structure Message where
  sender : Sender
  text : String
  wines : Option (List Wine) := none
  deriving DecidableEq, Repr

/-- The three tab identifiers of the `tabs` array. -/
inductive Tab where
  | chat
  | profile
  | cellar
  deriving DecidableEq, Repr

/-- The state of the running `App` component.  `pending` models the
queue of not-yet-fired `setTimeout` callbacks scheduled by
`handleSend`; each entry is the `newMessages` list captured by the
corresponding closure.  All timers share the fixed 1000 ms delay, so
they fire in the order they were scheduled. -/
structure AppState where
  activeTab : Tab
  inputValue : String
  messages : List Message
  pending : List (List Message)
  deriving DecidableEq, Repr

/-- The two wine records on the third seed message. -/
def seedWines : List Wine :=
  [ { name := "Barolo DOCG 2018"
    , region := "Piemont, Italien"
    , grape := "Nebbiolo"
    , points := 94
    , description := "Die Struktur dieses Rotweins harmoniert ausgezeichnet mit der Intensität des Fleisches. Die samtigen Tannine umschmeicheln die reichhaltigen Aromen des Gerichts."
    , price := "€78" }
  , { name := "Châteauneuf-du-Pape 2019"
    , region := "Rhône, Frankreich"
    , grape := "Grenache, Syrah"
    , points := 92
    , description := "Die Fülle des Weins steht im perfekten Gleichgewicht mit der Aromatik Ihrer Speise. Dabei stehen Wein und Speise in perfekter Balance zueinander."
    , price := "€52" } ]

/-- The seed conversation passed to `useState` for `messages`. -/
def seedMessages : List Message :=
  [ { sender := Sender.bot
    , text := "Guten Abend! Ich bin Ihr persönlicher Sommelier. Wie darf ich Ihnen heute behilflich sein?" }
  , { sender := Sender.user
    , text := "Ich suche einen Rotwein zu einem Rinderfilet." }
  , { sender := Sender.bot
    , text := "Eine ausgezeichnete Wahl! Zu einem Rinderfilet empfehle ich Ihnen kräftige Rotweine mit guter Tanninstruktur. Hier sind meine Empfehlungen:"
    , wines := some seedWines } ]

/-- Session-start state: `useState('chat')`, `useState('')`,
`useState(seedMessages)`, no timer scheduled. -/
def initialState : AppState :=
  { activeTab := Tab.chat
  , inputValue := ""
  , messages := seedMessages
  , pending := [] }

/-- JavaScript `String.prototype.trim`: removes leading and trailing
whitespace characters.  Written over the character list so that it
evaluates by kernel reduction. -/
def jsTrim (s : String) : String :=
  String.mk (((s.data.dropWhile Char.isWhitespace).reverse.dropWhile Char.isWhitespace).reverse)

/-- The fixed bot message appended by the `setTimeout` callback. -/
def botReply : Message :=
  { sender := Sender.bot
  , text := "Vielen Dank für Ihre Anfrage. Ich analysiere gerade die besten Optionen für Sie..." }

/-- The `handleSend` handler: returns the state unchanged when
`inputValue.trim()` is falsy (the empty string); otherwise appends
`{sender:'user', text: inputValue}` (the raw, untrimmed draft) to
`messages`, clears `inputValue`, and schedules one timeout whose
closure captures `newMessages`. -/
def handleSend (s : AppState) : AppState :=
  if jsTrim s.inputValue = "" then s
  else
    let newMessages := s.messages ++ [{ sender := Sender.user, text := s.inputValue }]
    { s with
      messages := newMessages
      inputValue := ""
      pending := s.pending ++ [newMessages] }

/-- Expiry of the oldest scheduled timeout: its callback runs
`setMessages([...newMessages, botReply])` using the list the closure
captured, not the current `messages`. -/
def fireTimer (s : AppState) : AppState :=
  match s.pending with
  | [] => s
  | captured :: rest =>
      { s with messages := captured ++ [botReply], pending := rest }

/-- The `setInputValue` setter, invoked by the controlled input's
`onChange`. -/
def setInputValue (s : AppState) (t : String) : AppState :=
  { s with inputValue := t }

/-- A tab button's `onClick={() => setActiveTab(tab.id)}`. -/
def selectTab (s : AppState) (t : Tab) : AppState :=
  { s with activeTab := t }

/-- The externally observable events that drive the state machine. -/
inductive Event where
  | selectTab (t : Tab)
  | setDraft (t : String)
  | submitDraft
  | timerFire
  deriving DecidableEq, Repr

/-- One step of the session: each UI handler or timer callback runs to
completion. -/
def step (s : AppState) : Event → AppState
  | Event.selectTab t => selectTab s t
  | Event.setDraft t => setInputValue s t
  | Event.submitDraft => handleSend s
  | Event.timerFire => fireTimer s

/-- Run a sequence of events from a state. -/
def runEvents (s : AppState) (es : List Event) : AppState :=
  es.foldl step s

/-- A cellar slot, one entry of the `slots` array in `CellarView`. -/
structure Slot where
  filled : Bool
  deriving DecidableEq, Repr

/-- The fixed nine-slot list of `CellarView`. -/
def cellarSlots : List Slot :=
  [⟨true⟩, ⟨true⟩, ⟨false⟩, ⟨true⟩, ⟨false⟩, ⟨true⟩, ⟨false⟩, ⟨true⟩, ⟨false⟩]

/-- The summary count `slots.filter(s => s.filled).length`. -/
def filledCount (l : List Slot) : Nat :=
  (l.filter (fun s => s.filled)).length

/-- The summary count `slots.filter(s => !s.filled).length`. -/
def emptyCount (l : List Slot) : Nat :=
  (l.filter (fun s => !s.filled)).length

/-- The rendered form of one chat message produced by the `Message`
component: bubble text, sender (which controls the Sommelier label),
and the wine-card list exactly when the message has a `wines` field. -/
structure MessageView where
  sender : Sender
  text : String
  wineCards : Option (List Wine)
  deriving DecidableEq, Repr

/-- Rendering of a single message by the `Message` component. -/
def renderMessage (m : Message) : MessageView :=
  { sender := m.sender, text := m.text, wineCards := m.wines }

/-- The static taste-profile data of `ProfileView`. -/
def tasteProfile : List (String × Nat) :=
  [("Süße", 25), ("Säure", 70), ("Tannin", 60), ("Körper", 55), ("Alkohol", 45)]

/-- The static preference tags of `ProfileView`. -/
def preferences : List String :=
  ["Bordeaux", "Burgund", "Bio-Weine", "unter 50€", "Barrique"]

/-- Exactly one of the three view bodies produced by the conditional
rendering at the bottom of `App`. -/
inductive ViewBody where
  | chatBody (msgs : List MessageView) (input : String)
  | profileBody (taste : List (String × Nat)) (prefs : List String)
  | cellarBody (slotList : List Slot) (filledC : Nat) (emptyC : Nat)
  deriving DecidableEq, Repr

/-- The tab a view body belongs to. -/
def ViewBody.tab : ViewBody → Tab
  | ViewBody.chatBody _ _ => Tab.chat
  | ViewBody.profileBody _ _ => Tab.profile
  | ViewBody.cellarBody _ _ _ => Tab.cellar

/-- The view selection of `App`: `activeTab === 'chat' && <ChatView/>`
and its two siblings render exactly one body, chosen by `activeTab`;
the chat body shows every message in list order, the cellar body shows
the slot grid with its two derived summary counts. -/
def render (s : AppState) : ViewBody :=
  match s.activeTab with
  | Tab.chat => ViewBody.chatBody (s.messages.map renderMessage) s.inputValue
  | Tab.profile => ViewBody.profileBody tasteProfile preferences
  | Tab.cellar => ViewBody.cellarBody cellarSlots (filledCount cellarSlots) (emptyCount cellarSlots)

/-- A small concrete state whose draft has surrounding whitespace. -/
def paddedDraftState : AppState :=
  { activeTab := Tab.chat, inputValue := " Hallo ", messages := [], pending := [] }

/-- The seed state with the example draft from the spec typed in. -/
def sampleDraftState : AppState :=
  { initialState with inputValue := "Empfehlen Sie mir einen Weißwein" }

/-- A second concrete state with a different draft and history. -/
def altDraftState : AppState :=
  { activeTab := Tab.cellar, inputValue := "Noch ein Wein", messages := [botReply], pending := [] }

/-- Events of the rapid double-send scenario: type and send "a", then
type and send "b" before either timer fires, then let both timers
fire in scheduling order. -/
def twoSendTrace : List Event :=
  [Event.setDraft "a", Event.submitDraft, Event.setDraft "b", Event.submitDraft,
   Event.timerFire, Event.timerFire]

/-- The state just before the first timer fires in the double-send
scenario. -/
def preTimerState : AppState :=
  runEvents initialState
    [Event.setDraft "a", Event.submitDraft, Event.setDraft "b", Event.submitDraft]

/-- C1 as stated is false on the code: a draft with surrounding
whitespace passes the non-empty check, and `handleSend` appends the
raw draft text, not the trimmed draft text. -/
theorem C1_counterexample :
    jsTrim paddedDraftState.inputValue ≠ "" ∧
    (handleSend paddedDraftState).messages
      = [{ sender := Sender.user, text := " Hallo " }] ∧
    (handleSend paddedDraftState).messages
      ≠ [{ sender := Sender.user, text := jsTrim paddedDraftState.inputValue }] := by
  decide

/-- C1 (amended): for every draft whose trimmed form is non-empty, a
successful `handleSend` appends exactly one new message with
sender=user whose text equals the draft exactly as typed (untrimmed;
trimming is used only for the emptiness guard), and resets the draft
input to the empty string. -/
theorem C1_draft_appended_untrimmed (s : AppState) (h : jsTrim s.inputValue ≠ "") :
    (handleSend s).messages
      = s.messages ++ [{ sender := Sender.user, text := s.inputValue }] ∧
    (handleSend s).inputValue = "" := by
  simp [handleSend, h]

/-- Witness for C1 (amended) at the spec's example draft. -/
theorem C1_draft_appended_untrimmed_witness :
    (handleSend sampleDraftState).messages
      = sampleDraftState.messages
          ++ [{ sender := Sender.user, text := sampleDraftState.inputValue }] ∧
    (handleSend sampleDraftState).inputValue = "" :=
  C1_draft_appended_untrimmed sampleDraftState (by decide)

/-- C4: for every draft whose trimmed form is empty, `handleSend`
returns the state unchanged: same messages, same draft input, and no
timer scheduled. -/
theorem C4_blank_draft_noop (s : AppState) (h : jsTrim s.inputValue = "") :
    handleSend s = s := by
  simp [handleSend, h]

/-- Witness for C4 at the whitespace-only draft from the spec. -/
theorem C4_blank_draft_noop_witness :
    handleSend { initialState with inputValue := "   " }
      = { initialState with inputValue := "   " } :=
  C4_blank_draft_noop { initialState with inputValue := "   " } (by decide)

/-- C2 fails on the code (stale closure): each timeout callback writes
its captured snapshot plus the reply, so after two rapid sends and
both timer expiries the session gains two user messages but only ONE
bot reply — the first reply is overwritten by the second timer's stale
snapshot.  The claim requires two new bot replies. -/
theorem C2_two_sends_lose_a_reply :
    (runEvents initialState twoSendTrace).messages.map Message.sender
      = [Sender.bot, Sender.user, Sender.bot, Sender.user, Sender.user, Sender.bot] ∧
    (runEvents initialState twoSendTrace).messages.map Message.text
      = initialState.messages.map Message.text ++ ["a", "b", botReply.text] := by
  decide

/-- C3 fails on the code: in the double-send scenario the first timer
expiry replaces `messages` with its stale snapshot plus the reply, a
list of which the previous `messages` list is NOT a prefix (the second
user message is dropped from it). -/
theorem C3_timer_overwrite_not_append :
    ¬ ∃ t : List Message,
        (step preTimerState Event.timerFire).messages = preTimerState.messages ++ t := by
  rintro ⟨t, ht⟩
  have hlen := congrArg List.length ht
  rw [List.length_append] at hlen
  have h5 : (step preTimerState Event.timerFire).messages.length = 5 := by decide
  have h5' : preTimerState.messages.length = 5 := by decide
  rw [h5, h5'] at hlen
  have ht0 : t = [] := List.length_eq_zero.mp (by omega)
  subst ht0
  rw [List.append_nil] at ht
  have hx : Option.map Message.text (step preTimerState Event.timerFire).messages[4]?
      = some "Vielen Dank für Ihre Anfrage. Ich analysiere gerade die besten Optionen für Sie..." := by
    decide
  have hy : Option.map Message.text preTimerState.messages[4]? = some "b" := by
    decide
  rw [ht, hy] at hx
  exact absurd hx (by decide)

/-- Helper: a successful send with no timer in flight, followed by the
timer expiry, appends exactly the user message and then the fixed bot
reply, and leaves no timer pending. -/
theorem send_then_fire (s : AppState)
    (h : jsTrim s.inputValue ≠ "") (hp : s.pending = []) :
    step (handleSend s) Event.timerFire
      = { activeTab := s.activeTab
        , inputValue := ""
        , messages := s.messages ++ [{ sender := Sender.user, text := s.inputValue }, botReply]
        , pending := [] } := by
  simp [step, handleSend, fireTimer, h, hp]

/-- C5: from any state with no timer in flight, a single successful
`handleSend` followed by the timer expiry appends exactly the user
message and then one bot reply (which carries no wines), leaves no
further timer pending, and places the reply strictly after the user
message. -/
theorem C5_single_send_reply (s : AppState)
    (h : jsTrim s.inputValue ≠ "") (hp : s.pending = []) :
    step (handleSend s) Event.timerFire
      = { activeTab := s.activeTab
        , inputValue := ""
        , messages := s.messages ++ [{ sender := Sender.user, text := s.inputValue }, botReply]
        , pending := [] } ∧
    botReply.sender = Sender.bot ∧ botReply.wines = none :=
  ⟨send_then_fire s h hp, rfl, rfl⟩

/-- Witness for C5 at the spec's example draft typed into the seed
state. -/
theorem C5_single_send_reply_witness :
    step (handleSend sampleDraftState) Event.timerFire
      = { activeTab := sampleDraftState.activeTab
        , inputValue := ""
        , messages := sampleDraftState.messages
            ++ [{ sender := Sender.user, text := sampleDraftState.inputValue }, botReply]
        , pending := [] } ∧
    botReply.sender = Sender.bot ∧ botReply.wines = none :=
  C5_single_send_reply sampleDraftState (by decide) rfl

/-- C6: at session start the message list has length 3 with senders
(bot, user, bot), the third message carries exactly two wine
recommendations (the first two carry none), the active tab is chat,
and the draft input is empty. -/
theorem C6_seed_state :
    initialState.messages.length = 3 ∧
    initialState.messages.map Message.sender = [Sender.bot, Sender.user, Sender.bot] ∧
    initialState.messages.map (fun m => Option.map List.length m.wines)
      = [none, none, some 2] ∧
    initialState.activeTab = Tab.chat ∧
    initialState.inputValue = "" := by
  decide

/-- Helper: the filled count of a cons. -/
theorem filledCount_cons (a : Slot) (l : List Slot) :
    filledCount (a :: l) = (if a.filled then 1 else 0) + filledCount l := by
  cases ha : a.filled <;> simp [filledCount, List.filter_cons, ha, Nat.add_comm]

/-- Helper: the empty count of a cons. -/
theorem emptyCount_cons (a : Slot) (l : List Slot) :
    emptyCount (a :: l) = (if a.filled then 0 else 1) + emptyCount l := by
  cases ha : a.filled <;> simp [emptyCount, List.filter_cons, ha, Nat.add_comm]

/-- C7: the cellar summary counts are pure functions of the slot list;
on the nine-slot list they are 5 filled and 4 empty, and for every
slot list filled + empty equals the total and empty equals total minus
filled. -/
theorem C7_cellar_counts :
    filledCount cellarSlots = 5 ∧
    emptyCount cellarSlots = 4 ∧
    cellarSlots.map Slot.filled
      = [true, true, false, true, false, true, false, true, false] ∧
    ∀ l : List Slot,
      filledCount l + emptyCount l = l.length ∧
      emptyCount l = l.length - filledCount l := by
  refine ⟨by decide, by decide, by decide, ?_⟩
  intro l
  have hsum : filledCount l + emptyCount l = l.length := by
    induction l with
    | nil => simp [filledCount, emptyCount]
    | cons a t ih =>
        rw [filledCount_cons, emptyCount_cons, List.length_cons]
        cases a.filled <;> simp <;> omega
  exact ⟨hsum, by omega⟩

/-- C8: after any non-empty sequence of tab selections the active tab
is the last tab selected; selecting a tab twice is idempotent, and
selecting the already-active tab leaves the active tab unchanged. -/
theorem C8_selectTab_last_wins (s : AppState) (t : Tab) (ts : List Tab) :
    ((t :: ts).foldl selectTab s).activeTab = (t :: ts).getLast (by simp) ∧
    (∀ u : Tab, selectTab (selectTab s u) u = selectTab s u) ∧
    (selectTab s s.activeTab).activeTab = s.activeTab := by
  refine ⟨?_, fun u => rfl, rfl⟩
  induction ts generalizing s t with
  | nil => rfl
  | cons u ts ih =>
      rw [List.getLast_cons (by simp)]
      exact ih (selectTab s t) u

/-- C9: rendering is a deterministic function of the active tab, the
messages, the draft input and the static data — in particular it does
not depend on the pending timer queue; exactly one view body is
produced and it is the one selected by the active tab; the chat body
lists all messages in order, and the rendered messages carry exactly
the wines of the underlying messages. -/
theorem C9_render_deterministic (s s' : AppState)
    (hTab : s.activeTab = s'.activeTab)
    (hMsgs : s.messages = s'.messages)
    (hInput : s.inputValue = s'.inputValue) :
    render s = render s' ∧
    (render s).tab = s.activeTab ∧
    (s.activeTab = Tab.chat →
      render s = ViewBody.chatBody (s.messages.map renderMessage) s.inputValue) ∧
    (s.messages.map renderMessage).map MessageView.wineCards
      = s.messages.map Message.wines := by
  refine ⟨?_, ?_, ?_, ?_⟩
  · unfold render
    rw [hTab, hMsgs, hInput]
  · unfold render
    cases s.activeTab <;> rfl
  · intro hc
    unfold render
    rw [hc]
  · rw [List.map_map]
    rfl

/-- Witness for C9: the seed state and the seed state with a pending
timer render identically. -/
theorem C9_render_deterministic_witness :
    render initialState = render { initialState with pending := [seedMessages] } ∧
    (render initialState).tab = initialState.activeTab ∧
    (initialState.activeTab = Tab.chat →
      render initialState
        = ViewBody.chatBody (initialState.messages.map renderMessage) initialState.inputValue) ∧
    (initialState.messages.map renderMessage).map MessageView.wineCards
      = initialState.messages.map Message.wines :=
  C9_render_deterministic initialState { initialState with pending := [seedMessages] } rfl rfl rfl

/-- C10: the simulated reply is a fixed constant — for any two states
whose drafts pass the non-empty check (and with no earlier timer in
flight), the bot message appended when each timer fires is the same
`botReply`, independent of the submitted text and of the conversation
so far. -/
theorem C10_fixed_bot_reply (s s' : AppState)
    (h : jsTrim s.inputValue ≠ "") (h' : jsTrim s'.inputValue ≠ "")
    (hp : s.pending = []) (hp' : s'.pending = []) :
    (step (handleSend s) Event.timerFire).messages.getLast? = some botReply ∧
    (step (handleSend s') Event.timerFire).messages.getLast? = some botReply := by
  constructor
  · rw [send_then_fire s h hp]
    show (s.messages
        ++ [{ sender := Sender.user, text := s.inputValue }, botReply]).getLast?
      = some botReply
    rw [List.getLast?_append_cons]
    rfl
  · rw [send_then_fire s' h' hp']
    show (s'.messages
        ++ [{ sender := Sender.user, text := s'.inputValue }, botReply]).getLast?
      = some botReply
    rw [List.getLast?_append_cons]
    rfl

/-- Witness for C10 at two different drafts and histories. -/
theorem C10_fixed_bot_reply_witness :
    (step (handleSend sampleDraftState) Event.timerFire).messages.getLast? = some botReply ∧
    (step (handleSend altDraftState) Event.timerFire).messages.getLast? = some botReply :=
  C10_fixed_bot_reply sampleDraftState altDraftState (by decide) (by decide) rfl rfl
